import Mathlib

/-!
Verification of the OpenVPN configuration-updater (openvpn_certificate_updater.py)
against its natural-language specification.

The Python program is shallowly embedded: file names are lists of characters,
file contents are lists of bytes (`List Nat`), the state of the filesystem that
the program touches (the target configuration file, the `.new` and `.temp`
staging files, the backup directory listing) is an explicit record, and every
external effect (FTP downloads, subprocess calls, the MD5 hash) is an oracle
supplied in an environment record.  Local filesystem primitives that the source
does not guard (copy/move/remove of files already confirmed present) are
modelled as total state updates.
-/

namespace OvpnUpdater

/-- Content and permission bits of a file on disk.  `perm` is the numeric mode
(the source sets `0o600` after installs and restores). -/
structure FileData where
  content : List Nat
  perm : Nat
deriving Repr, DecidableEq

/-- One entry of the backup directory: file name, modification time
(`os.path.getmtime`), and content. -/
structure BEntry where
  name : List Char
  mtime : Nat
  content : List Nat
deriving Repr, DecidableEq

/-- The filesystem state the updater manipulates: the target configuration
file (`local_file_path`), the `.new` staging file, the `.temp` download used
for hash comparison, and the backup directory (`none` when the directory does
not exist). -/
structure RunState where
  target : Option FileData
  newFile : Option (List Nat)
  tempFile : Option (List Nat)
  backupDir : Option (List BEntry)
deriving Repr, DecidableEq

/-- Result of one call to `_download_ovpn_file`: success with the downloaded
bytes, a transfer failure after the local file was already created (a partial
file of given bytes remains), or a failure before the local file was created. -/
inductive DlResult where
  | ok (content : List Nat)
  | failPartial (content : List Nat)
  | failNoFile
deriving Repr, DecidableEq

/-- Result of one `subprocess.run` with a timeout: completion with an exit
code, or `subprocess.TimeoutExpired`. -/
inductive CmdResult where
  | exit (code : Int)
  | timeout
deriving Repr, DecidableEq

/-- Embedding of `_restart_openvpn_service` (source lines 390-431).
`enabled` is `verification.restart_openvpn`; `p` is the outcome of the
`systemctl restart` call and `s` the outcome of the `service ... restart`
fallback.  Returns (result, fallback attempted).  A `TimeoutExpired` raised by
either call is caught by the outer handler, which returns `False`. -/
def restartSvc (enabled : Bool) (p s : CmdResult) : Bool × Bool :=
  if !enabled then (true, false)
  else
    match p with
    | CmdResult.timeout => (false, false)
    | CmdResult.exit c =>
      if c = 0 then (true, false)
      else
        match s with
        | CmdResult.timeout => (false, true)
        | CmdResult.exit c2 => (decide (c2 = 0), true)

/-- Python substring test `pat in s` on character lists. -/
def listContainsSub (s pat : List Char) : Bool :=
  (List.range (s.length + 1)).any (fun i => pat.isPrefixOf (s.drop i))

/-- Observations one connectivity attempt can make: the `systemctl is-active`
call (exit code, `none` on timeout/exception), its stripped stdout, the
`ip link show` output (`none` on timeout), and the `journalctl` output
(`none` on timeout). -/
structure SysObs where
  isActiveRC : Option Int
  isActiveOut : List Char
  ipLinkOut : Option (List Char)
  journalOut : Option (List Char)

/-- How one iteration of the `_check_openvpn_connectivity` loop ends. -/
inductive AttemptRes where
  | connected
  | failDefinite
  | failTimeout
deriving Repr, DecidableEq

/-- One iteration of the loop body of `_check_openvpn_connectivity`
(source lines 290-341): service-status check, tunnel-interface check,
log check.  `failDefinite` is the inactive-service / error-logs path,
`failTimeout` the caught `TimeoutExpired`/exception path; both retry. -/
def attemptEval (o : SysObs) : AttemptRes :=
  match o.isActiveRC with
  | none => AttemptRes.failTimeout
  | some rc =>
    if rc != 0 || o.isActiveOut != "active".toList then AttemptRes.failDefinite
    else
      match o.ipLinkOut with
      | none => AttemptRes.failTimeout
      | some out =>
        if listContainsSub out "tun".toList || listContainsSub out "tap".toList then
          AttemptRes.connected
        else
          match o.journalOut with
          | none => AttemptRes.failTimeout
          | some j =>
            if listContainsSub j "ERROR".toList || listContainsSub j "FATAL".toList then
              AttemptRes.failDefinite
            else AttemptRes.connected

/-- The retry loop of `_check_openvpn_connectivity`: `rem` iterations remain,
`i` is the 1-based attempt index, `obs i` the observations of attempt `i`.
Returns the result together with the number of attempts entered; every entered
attempt performs exactly one service-status check first, so the counter is
also the number of service-status checks. -/
def connRun (obs : Nat → SysObs) : Nat → Nat → Bool × Nat
  | 0, _ => (false, 0)
  | Nat.succ rem, i =>
    match attemptEval (obs i) with
    | AttemptRes.connected => (true, 1)
    | _ =>
      let p := connRun obs rem (i + 1)
      (p.1, p.2 + 1)

/-- Embedding of `_check_openvpn_connectivity` (source lines 275-348).
`maxAttempts` is `verification.rollback.max_connection_attempts`; Python's
`range(1, max_attempts + 1)` yields `max 0 maxAttempts` iterations, which is
`Int.toNat`. -/
def checkOpenvpnConnectivity (maxAttempts : Int) (obs : Nat → SysObs) : Bool × Nat :=
  connRun obs maxAttempts.toNat 1

/-- The fixed token placed between the original file name and the timestamp in
backup names (`f"{filename}.backup_{timestamp}"`, source line 265). -/
def backupToken : List Char := ".backup_".toList

/-- Name of the backup `_create_backup` produces for base name `base` with
`strftime` output `ts`. -/
def createBackupName (base ts : List Char) : List Char :=
  base ++ backupToken ++ ts

/-- The configuration values the update path reads (each `config.get` call
resolved to its value-or-default). -/
structure Config where
  createBackup : Bool
  backupPath : Option (List Char)
  restartOpenvpn : Bool
  checkConnectivity : Bool
  autoRollback : Bool
  maxConnAttempts : Int

/-- The oracles of one orchestrator run: configuration, the base name of the
target file, the remote LIST result (`none` when the file is absent or the
listing failed), the two downloads, the MD5 hash function, whether the
`shutil.copy2` of `_create_backup` succeeds, the `strftime` timestamp and
current mtime, the subprocess outcomes of the install-path restart and of the
rollback-path restart, and the connectivity observations. -/
structure Env where
  cfg : Config
  baseName : List Char
  remoteSize : Option Nat
  dlTemp : DlResult
  dlNew : DlResult
  hashFn : List Nat → List Nat
  copyBackupOk : Bool
  ts : List Char
  now : Nat
  restartPrimary : CmdResult
  restartSecondary : CmdResult
  rbRestartPrimary : CmdResult
  rbRestartSecondary : CmdResult
  connObs : Nat → SysObs

/-- Embedding of `_create_backup` (source lines 243-273): no-op success when
no backup path is configured; otherwise `os.makedirs` ensures the backup
directory exists, then `shutil.copy2` appends a `createBackupName` entry (the
oracle `copyBackupOk` decides whether the copy raises). -/
def createBackup (env : Env) (st : RunState) : Bool × RunState :=
  match env.cfg.backupPath with
  | none => (true, st)
  | some _ =>
    let dir := st.backupDir.getD []
    if env.copyBackupOk then
      match st.target with
      | some fd =>
        let e : BEntry := ⟨createBackupName env.baseName env.ts, env.now, fd.content⟩
        (true, { st with backupDir := some (dir ++ [e]) })
      | none => (false, { st with backupDir := some dir })
    else (false, { st with backupDir := some dir })

/-- Embedding of the latest-backup selection inlined in
`_download_and_install_ovpn` (source lines 529-534): filter the directory
listing by `f.startswith(basename)` and `f.endswith('.backup_')`, sort by
mtime descending (Python's stable sort), take the first. -/
def latestBackupFor (base : List Char) (dir : List BEntry) : Option BEntry :=
  let hits := dir.filter
    (fun e => base.isPrefixOf e.name && backupToken.isSuffixOf e.name)
  hits.foldl
    (fun acc e =>
      match acc with
      | none => some e
      | some a => if e.mtime > a.mtime then some e else some a)
    none

/-- `os.path.exists(backup_file)` / `shutil.copy2(backup_file, ...)` source:
look the chosen backup name up in the backup directory. -/
def findBackup (dir : Option (List BEntry)) (name : List Char) : Option BEntry :=
  (dir.getD []).find? (fun e => e.name == name)

/-- Embedding of `_rollback_configuration` (source lines 350-388): fail if the
backup file is gone; otherwise remove the current target, copy the backup back,
`chmod 0o600`, and restart the service (a fresh `_restart_openvpn_service`
invocation with its own subprocess outcomes). -/
def rollbackConfiguration (env : Env) (backupName : List Char) (st : RunState) :
    Bool × RunState :=
  match findBackup st.backupDir backupName with
  | none => (false, st)
  | some e =>
    let st1 := { st with target := some ⟨e.content, 0o600⟩ }
    ((restartSvc env.cfg.restartOpenvpn env.rbRestartPrimary env.rbRestartSecondary).1, st1)

/-- Outcome of `_download_and_install_ovpn`: the returned boolean, the final
filesystem state, the rollback candidate `backup_file` after the backup phase,
and whether `_rollback_configuration` was invoked. -/
structure InstallOut where
  ok : Bool
  st : RunState
  backupChosen : Option (List Char)
  rollbackInvoked : Bool
deriving Repr, DecidableEq

/-- The backup phase of `_download_and_install_ovpn` (source lines 520-535):
when `create_backup` is enabled and the target exists, create a backup; on
success re-list the backup directory and select the latest matching backup as
the rollback candidate. -/
def backupPhase (env : Env) (st : RunState) : Option (List Char) × RunState :=
  if env.cfg.createBackup then
    match st.target with
    | some _ =>
      let r := createBackup env st
      if r.1 then
        match env.cfg.backupPath with
        | some _ =>
          match r.2.backupDir with
          | some dir => ((latestBackupFor env.baseName dir).map BEntry.name, r.2)
          | none => (none, r.2)
        | none => (none, r.2)
      else (none, r.2)
    | none => (none, st)
  else (none, st)

/-- Embedding of `_download_and_install_ovpn` (source lines 506-594): backup
phase, download to the `.new` staging file, refuse an empty download, swap the
staging file into place and `chmod 0o600`, restart the service, optionally
verify connectivity, and on restart/connectivity failure roll back when a
backup candidate exists and `auto_rollback` is enabled. -/
def downloadAndInstall (env : Env) (st : RunState) : InstallOut :=
  let bp := backupPhase env st
  let backupChosen := bp.1
  let st1 := bp.2
  match env.dlNew with
  | DlResult.failNoFile => ⟨false, st1, backupChosen, false⟩
  | DlResult.failPartial c => ⟨false, { st1 with newFile := some c }, backupChosen, false⟩
  | DlResult.ok c =>
    if c.length = 0 then ⟨false, { st1 with newFile := none }, backupChosen, false⟩
    else
      let st2 := { st1 with newFile := none, target := some ⟨c, 0o600⟩ }
      if (restartSvc env.cfg.restartOpenvpn env.restartPrimary env.restartSecondary).1 then
        if env.cfg.checkConnectivity then
          if (checkOpenvpnConnectivity env.cfg.maxConnAttempts env.connObs).1 then
            ⟨true, st2, backupChosen, false⟩
          else
            match backupChosen, env.cfg.autoRollback with
            | some bname, true =>
              let r := rollbackConfiguration env bname st2
              ⟨r.1, r.2, backupChosen, true⟩
            | _, _ => ⟨false, st2, backupChosen, false⟩
        else ⟨true, st2, backupChosen, false⟩
      else
        match backupChosen, env.cfg.autoRollback with
        | some bname, true =>
          let r := rollbackConfiguration env bname st2
          ⟨r.1, r.2, backupChosen, true⟩
        | _, _ => ⟨false, st2, backupChosen, false⟩

/-- Outcome of `check_and_update_config`: the returned boolean, the final
state, whether the remote artifact was fetched to `.temp` for content
comparison, whether `_download_and_install_ovpn` was invoked, and the install
trace fields. -/
structure RunOut where
  ok : Bool
  st : RunState
  fetchedTemp : Bool
  installCalled : Bool
  backupChosen : Option (List Char)
  rollbackInvoked : Bool
deriving Repr, DecidableEq

/-- Embedding of `check_and_update_config` (source lines 433-504): detection
failure when the remote listing yields nothing; install when the local file is
missing; install on a size mismatch without any content fetch; on equal sizes
download to `.temp`, compare MD5 digests, remove `.temp`, and install exactly
when the digests differ. -/
def checkAndUpdateConfig (env : Env) (st : RunState) : RunOut :=
  match env.remoteSize with
  | none => ⟨false, st, false, false, none, false⟩
  | some rsize =>
    match st.target with
    | none =>
      let o := downloadAndInstall env st
      ⟨o.ok, o.st, false, true, o.backupChosen, o.rollbackInvoked⟩
    | some fd =>
      if rsize ≠ fd.content.length then
        let o := downloadAndInstall env st
        ⟨o.ok, o.st, false, true, o.backupChosen, o.rollbackInvoked⟩
      else
        match env.dlTemp with
        | DlResult.ok c =>
          let lh := env.hashFn fd.content
          let rh := env.hashFn c
          let st2 := { st with tempFile := none }
          if lh ≠ rh then
            let o := downloadAndInstall env st2
            ⟨o.ok, o.st, true, true, o.backupChosen, o.rollbackInvoked⟩
          else ⟨true, st2, true, false, none, false⟩
        | DlResult.failPartial c => ⟨false, { st with tempFile := some c }, true, false, none, false⟩
        | DlResult.failNoFile => ⟨false, st, true, false, none, false⟩

/-- Embedding of the exit-code mapping in `main` (source lines 610-621):
exit 0 when `check_and_update_config` returned `True`, exit 1 otherwise. -/
def mainExitCode (ok : Bool) : Nat := if ok then 0 else 1

/-- The terminal `UpdateOutcome` values of the specification. -/
inductive Outcome where
  | unchanged
  | updated
  | updatedWithRollback
  | failed
deriving Repr, DecidableEq

/-- Modelled from the spec: the specification's `UpdateOutcome` labelling of a
run, read off the run trace — a run that invoked rollback and succeeded is
`UpdatedWithRollback`, a successful install is `Updated`, a successful no-op
is `Unchanged`, everything else is `Failed`. -/
def specOutcome (o : RunOut) : Outcome :=
  if o.rollbackInvoked then
    if o.ok then Outcome.updatedWithRollback else Outcome.failed
  else if o.installCalled then
    if o.ok then Outcome.updated else Outcome.failed
  else if o.ok then Outcome.unchanged
  else Outcome.failed

/-- The `strftime("%Y%m%d_%H%M%S")` output always ends in a digit (the
seconds field); this is the only shape fact about timestamps the proofs use. -/
def tsDigitEnd (ts : List Char) : Bool :=
  match ts.getLast? with
  | some c => c.isDigit
  | none => false

/-- `name` is a backup name this system's `_create_backup` can produce:
the base name, the `.backup_` token, and a timestamp ending in a digit. -/
def SysBackupName (base name : List Char) : Prop :=
  ∃ ts, tsDigitEnd ts = true ∧ name = createBackupName base ts

/-- Identity as a concrete stand-in for the MD5 oracle in witnesses. -/
def idHash : List Nat → List Nat := fun l => l

/-- A service-status stub that always reports `inactive` with exit code 3. -/
def obsInactiveFun : Nat → SysObs := fun _ => ⟨some 3, "inactive".toList, none, none⟩

/-- Observations of a healthy attempt: active service, `tun0` interface up. -/
def obsUp : SysObs := ⟨some 0, "active".toList, some "tun0".toList, some "ok".toList⟩

/-- A configuration with every feature enabled. -/
def cfgAll : Config := ⟨true, some "backups".toList, true, true, true, 3⟩

/-- A concrete environment used by the witnesses: remote size 5, a non-empty
`.new` download, a failing primary and fallback restart on the install path,
and a succeeding restart on the rollback path. -/
def envBase : Env :=
  ⟨cfgAll, "client.ovpn".toList, some 5, DlResult.failNoFile,
   DlResult.ok [9, 9, 9, 9, 9], idHash, true, "20240101_120000".toList, 999,
   CmdResult.exit 1, CmdResult.exit 1, CmdResult.exit 0, CmdResult.exit 0,
   fun _ => obsUp⟩

/-- A clean starting state: 3-byte target, no staging files, empty backups. -/
def stPlain : RunState := ⟨some ⟨[1, 2, 3], 0o600⟩, none, none, some []⟩

/-- A starting state whose backup directory holds one externally created file
whose name ends in the literal `.backup_` token, which the selection filter
accepts. -/
def stRB : RunState :=
  ⟨some ⟨[1, 2, 3], 0o600⟩, none, none,
   some [⟨"client.ovpn.backup_".toList, 100, [5]⟩]⟩

/-- A starting state whose backup directory holds one backup created by this
system's own backup operation. -/
def stSys : RunState :=
  ⟨some ⟨[1, 2, 3], 0o600⟩, none, none,
   some [⟨createBackupName "client.ovpn".toList "20240101_100000".toList, 100, [1]⟩]⟩

/-- Environment whose size check matches the 3-byte target and whose `.temp`
download returns the same 3 bytes (a fresh artifact). -/
def envFresh : Env :=
  { envBase with remoteSize := some 3, dlTemp := DlResult.ok [1, 2, 3] }

/-- Environment whose `.temp` download fails mid-transfer after writing one
byte. -/
def envTempFail : Env :=
  { envBase with remoteSize := some 3, dlTemp := DlResult.failPartial [9] }

/-- Environment whose `.new` download succeeds but yields an empty file. -/
def envEmpty : Env := { envBase with dlNew := DlResult.ok [] }

/-- Environment where both downloads complete. -/
def envBothDl : Env := { envBase with dlTemp := DlResult.ok [7, 7] }

section Lemmas

/-- A timestamp ending in a digit is non-empty. -/
theorem tsDigitEnd_ne_nil {ts : List Char} (h : tsDigitEnd ts = true) : ts ≠ [] := by
  intro hnil
  subst hnil
  simp [tsDigitEnd] at h

/-- The `endswith('.backup_')` test is false on every name `_create_backup`
produces, because such names end with the timestamp, whose last character is
a digit, not `_`. -/
theorem backupToken_not_suffix_of_created {base ts : List Char}
    (h : tsDigitEnd ts = true) :
    backupToken.isSuffixOf (createBackupName base ts) = false := by
  rw [Bool.eq_false_iff]
  intro hsuf
  rw [List.isSuffixOf_iff_suffix] at hsuf
  obtain ⟨t, ht⟩ := hsuf
  have h1 : (t ++ backupToken).getLast? = backupToken.getLast? :=
    List.getLast?_append_of_ne_nil t (by decide)
  have h2 : (createBackupName base ts).getLast? = ts.getLast? :=
    List.getLast?_append_of_ne_nil (base ++ backupToken) (tsDigitEnd_ne_nil h)
  have h3 : ts.getLast? = some '_' := by
    rw [← h2, ← ht, h1]
    decide
  unfold tsDigitEnd at h
  rw [h3] at h
  simp at h

/-- The latest-backup selection returns `None` whenever every file in the
backup directory is a backup this system created. -/
theorem latestBackupFor_eq_none {base : List Char} {dir : List BEntry}
    (h : ∀ e ∈ dir, SysBackupName base e.name) :
    latestBackupFor base dir = none := by
  have hf : dir.filter
      (fun e => base.isPrefixOf e.name && backupToken.isSuffixOf e.name) = [] := by
    rw [List.filter_eq_nil_iff]
    intro e he
    obtain ⟨ts, hts, hname⟩ := h e he
    rw [hname]
    simp [backupToken_not_suffix_of_created hts]
  unfold latestBackupFor
  rw [hf]
  rfl

/-- `_create_backup` only touches the backup directory, never the target or
the staging files. -/
theorem createBackup_preserves (env : Env) (st : RunState) :
    (createBackup env st).2.target = st.target ∧
    (createBackup env st).2.newFile = st.newFile ∧
    (createBackup env st).2.tempFile = st.tempFile := by
  unfold createBackup
  rcases env.cfg.backupPath with _ | p
  · simp
  · cases env.copyBackupOk <;> cases st.target <;> simp

/-- The backup phase of the install step only touches the backup directory. -/
theorem backupPhase_preserves (env : Env) (st : RunState) :
    (backupPhase env st).2.target = st.target ∧
    (backupPhase env st).2.newFile = st.newFile ∧
    (backupPhase env st).2.tempFile = st.tempFile := by
  have hc := createBackup_preserves env st
  unfold backupPhase
  cases hcb : env.cfg.createBackup
  · simp
  · cases hst : st.target
    · simp [hst]
    · cases hcb2 : (createBackup env st).1 <;>
        cases hbp : env.cfg.backupPath <;>
        cases hbd : (createBackup env st).2.backupDir <;>
        simp [hst, hcb2, hbp, hbd, hc.1, hc.2.1, hc.2.2]

/-- When the backup directory listing contains only names created by this
system's backup operation (and the new backup taken this run is another such
name), the backup phase selects no rollback candidate. -/
theorem backupPhase_none_of_sys (env : Env) (st : RunState)
    (hdir : ∀ e ∈ st.backupDir.getD [], SysBackupName env.baseName e.name)
    (hts : tsDigitEnd env.ts = true) :
    (backupPhase env st).1 = none := by
  unfold backupPhase
  cases hcb : env.cfg.createBackup
  · simp
  · cases hst : st.target with
    | none => simp
    | some fd =>
      cases hbp : env.cfg.backupPath with
      | none => simp [createBackup, hbp]
      | some p =>
        cases hco : env.copyBackupOk with
        | false => simp [createBackup, hbp, hco]
        | true =>
          have hall : ∀ e ∈ (st.backupDir.getD [] ++
              [⟨createBackupName env.baseName env.ts, env.now, fd.content⟩]),
              SysBackupName env.baseName e.name := by
            intro e he
            rcases List.mem_append.mp he with h1 | h2
            · exact hdir e h1
            · rw [List.mem_singleton.mp h2]
              exact ⟨env.ts, hts, rfl⟩
          have hnone := latestBackupFor_eq_none hall
          simp [createBackup, hbp, hco, hst, hnone]

/-- A restore keeps the target present when it was present before (in fact it
either leaves the state unchanged or writes the backup content there). -/
theorem rollbackConfiguration_target_isSome (env : Env) (b : List Char)
    (st : RunState) (h : st.target.isSome = true) :
    (rollbackConfiguration env b st).2.target.isSome = true := by
  unfold rollbackConfiguration
  split
  · exact h
  · simp

/-- A restore never touches the `.new` staging file. -/
theorem rollbackConfiguration_newFile (env : Env) (b : List Char)
    (st : RunState) :
    (rollbackConfiguration env b st).2.newFile = st.newFile := by
  unfold rollbackConfiguration
  split <;> simp

/-- A restore never touches the `.temp` staging file. -/
theorem rollbackConfiguration_tempFile (env : Env) (b : List Char)
    (st : RunState) :
    (rollbackConfiguration env b st).2.tempFile = st.tempFile := by
  unfold rollbackConfiguration
  split <;> simp

/-- The install step keeps the target present when it was present before:
every failure exit happens before the target is removed, and each success or
rollback path writes a file there. -/
theorem downloadAndInstall_target_isSome (env : Env) (st : RunState)
    (h : st.target.isSome = true) :
    (downloadAndInstall env st).st.target.isSome = true := by
  have hb := (backupPhase_preserves env st).1
  unfold downloadAndInstall
  cases hdl : env.dlNew with
  | failNoFile => simpa [hb] using h
  | failPartial c => simpa [hb] using h
  | ok c =>
    simp only []
    split
    · simpa [hb] using h
    · repeat' split
      all_goals
        first
        | (apply rollbackConfiguration_target_isSome
           simp)
        | simp

/-- When the `.new` download completes, the install step always removes the
`.new` staging file (either because the payload was empty or because the file
was promoted to the target), and never touches the `.temp` file. -/
theorem downloadAndInstall_staging (env : Env) (st : RunState)
    (h : ∃ c, env.dlNew = DlResult.ok c) :
    (downloadAndInstall env st).st.newFile = none ∧
    (downloadAndInstall env st).st.tempFile = st.tempFile := by
  obtain ⟨c, hc⟩ := h
  have hb := backupPhase_preserves env st
  unfold downloadAndInstall
  rw [hc]
  simp only []
  split
  · simp [hb.2.2]
  · repeat' split
    all_goals
      simp [hb.2.2, rollbackConfiguration_newFile, rollbackConfiguration_tempFile]

end Lemmas

/-- C1: the spec says the latest-backup selection returns, among all backups
created by the system's backup operation for the target's base filename, the
one with the most recent creation time.  Evaluating the selection at a backup
directory holding three system-created backups with distinct timestamps shows
it returns `none` instead: the filter demands a name that ends in the literal
`.backup_` token, which no created name (`base.backup_<timestamp>`) satisfies. -/
theorem c1_selection_drops_system_backups :
    latestBackupFor "client.ovpn".toList
      [⟨"client.ovpn.backup_20240101_100000".toList, 100, [1]⟩,
       ⟨"client.ovpn.backup_20240102_100000".toList, 200, [2]⟩,
       ⟨"client.ovpn.backup_20240103_100000".toList, 300, [3]⟩] = none := by
  decide

/-- C2: in every install run whose backup directory contains only backups
created by this system's own backup operation, the rollback candidate
`backup_file` stays `None` and `_rollback_configuration` is never invoked
from `_download_and_install_ovpn`; restart or connectivity failures end the
run as a plain failure. -/
theorem c2_no_rollback_with_only_system_backups (env : Env) (st : RunState)
    (hdir : ∀ e ∈ st.backupDir.getD [], SysBackupName env.baseName e.name)
    (hts : tsDigitEnd env.ts = true) :
    (downloadAndInstall env st).backupChosen = none ∧
    (downloadAndInstall env st).rollbackInvoked = false := by
  have hch := backupPhase_none_of_sys env st hdir hts
  unfold downloadAndInstall
  simp only [hch]
  cases env.dlNew with
  | failNoFile => simp
  | failPartial c => simp
  | ok c =>
    simp only []
    repeat' split
    all_goals simp_all

/-- C2 witness: a concrete install run over a backup directory holding one
system-created backup chooses no rollback candidate and never rolls back. -/
theorem c2_no_rollback_with_only_system_backups_witness :
    (downloadAndInstall envBase stSys).backupChosen = none ∧
    (downloadAndInstall envBase stSys).rollbackInvoked = false := by
  have h := c2_no_rollback_with_only_system_backups envBase stSys
    (by
      intro e he
      simp [stSys] at he
      rw [he]
      exact ⟨"20240101_100000".toList, by decide, rfl⟩)
    (by decide)
  exact h

/-- C3: the claim says that whenever the primary `systemctl restart` fails,
including by timeout, the legacy `service restart` path is attempted before
`Failed` is returned.  At a primary timeout the code returns `Failed` without
attempting the fallback: `subprocess.TimeoutExpired` propagates to the outer
handler past the fallback branch. -/
theorem c3_primary_timeout_skips_fallback :
    restartSvc true CmdResult.timeout (CmdResult.exit 0) = (false, false) := by
  decide

/-- C3 amended: with restart enabled, `Failed` is returned only if the
primary command times out (in which case the fallback is not attempted) or
the primary exits non-zero and the fallback, which is then attempted, itself
times out or exits non-zero. -/
theorem c3_failed_characterization (p s : CmdResult)
    (h : (restartSvc true p s).1 = false) :
    (p = CmdResult.timeout ∧ (restartSvc true p s).2 = false) ∨
    ((∃ c, p = CmdResult.exit c ∧ c ≠ 0) ∧ (restartSvc true p s).2 = true ∧
      (s = CmdResult.timeout ∨ ∃ c2, s = CmdResult.exit c2 ∧ c2 ≠ 0)) := by
  cases p with
  | timeout => exact Or.inl ⟨rfl, rfl⟩
  | exit c =>
    by_cases hc : c = 0
    · subst hc
      simp [restartSvc] at h
    · refine Or.inr ⟨⟨c, rfl, hc⟩, ?_, ?_⟩
      · cases s <;> simp [restartSvc, hc]
      · cases s with
        | timeout => exact Or.inl rfl
        | exit c2 =>
          refine Or.inr ⟨c2, rfl, ?_⟩
          intro hc2
          subst hc2
          simp [restartSvc, hc] at h

/-- C3 amended witness: both commands exiting non-zero falls into the
characterization, with the fallback attempted. -/
theorem c3_failed_characterization_witness :
    (CmdResult.exit 1 = CmdResult.timeout ∧
      (restartSvc true (CmdResult.exit 1) (CmdResult.exit 2)).2 = false) ∨
    ((∃ c, CmdResult.exit 1 = CmdResult.exit c ∧ c ≠ 0) ∧
      (restartSvc true (CmdResult.exit 1) (CmdResult.exit 2)).2 = true ∧
      (CmdResult.exit 2 = CmdResult.timeout ∨
        ∃ c2, CmdResult.exit 2 = CmdResult.exit c2 ∧ c2 ≠ 0)) :=
  c3_failed_characterization (CmdResult.exit 1) (CmdResult.exit 2) (by decide)

/-- C9: with `max_connection_attempts = 3` and a service-status stub that
always completes reporting `inactive`, the connectivity verifier enters
exactly 3 attempts — each performing exactly one service-status check — and
returns `Disconnected` (the retry interval only affects sleeping, which the
embedding does not model). -/
theorem c9_verifier_exhausts_three_attempts (obs : Nat → SysObs)
    (h : ∀ i, (obs i).isActiveRC ≠ none ∧ (obs i).isActiveOut = "inactive".toList) :
    checkOpenvpnConnectivity 3 obs = (false, 3) := by
  have key : ∀ i, attemptEval (obs i) = AttemptRes.failDefinite := by
    intro i
    obtain ⟨h1, h2⟩ := h i
    unfold attemptEval
    cases hrc : (obs i).isActiveRC with
    | none => exact absurd hrc h1
    | some rc =>
      simp only []
      rw [if_pos]
      rw [h2]
      simp

  unfold checkOpenvpnConnectivity
  show connRun obs 3 1 = (false, 3)
  rw [show (3 : Nat) = 2 + 1 from rfl, connRun, key]
  rw [show (2 : Nat) = 1 + 1 from rfl, connRun, key]
  rw [show (1 : Nat) = 0 + 1 from rfl, connRun, key]
  rfl

/-- C9 witness: the always-inactive stub with exit code 3 yields exactly 3
checks and `Disconnected`. -/
theorem c9_verifier_exhausts_three_attempts_witness :
    checkOpenvpnConnectivity 3 obsInactiveFun = (false, 3) :=
  c9_verifier_exhausts_three_attempts obsInactiveFun
    (fun _ => ⟨by simp [obsInactiveFun], rfl⟩)

/-- C10: with `max_connection_attempts ≤ 0`, `range(1, max_attempts + 1)` is
empty, so the verifier returns `Disconnected` after entering zero attempts —
no service-status, interface, or log check is performed. -/
theorem c10_nonpositive_attempts_no_checks (m : Int) (obs : Nat → SysObs)
    (h : m ≤ 0) :
    checkOpenvpnConnectivity m obs = (false, 0) := by
  unfold checkOpenvpnConnectivity
  rw [Int.toNat_of_nonpos h]
  rfl

/-- C10 witness: `max_connection_attempts = -2` yields `Disconnected` with
zero checks. -/
theorem c10_nonpositive_attempts_no_checks_witness :
    checkOpenvpnConnectivity (-2) obsInactiveFun = (false, 0) :=
  c10_nonpositive_attempts_no_checks (-2) obsInactiveFun (by decide)

/-- C4: the claim says the `.new` and `.temp` staging files are removed on
every exit path.  A `.temp` download that fails mid-transfer (equal sizes, so
the digest-comparison download runs) exits the run as a failure with the
partially written `.temp` file still on disk: `check_and_update_config`
returns on the download failure without removing it. -/
theorem c4_partial_temp_download_left_behind :
    (checkAndUpdateConfig envTempFail stPlain).ok = false ∧
    (checkAndUpdateConfig envTempFail stPlain).st.tempFile = some [9] := by
  decide

/-- C4 amended: on every exit path of a run in which each staging download
that was attempted also completed, both staging files are absent at the end —
in particular the `.temp` copy is discarded after digest comparison regardless
of the comparison's outcome, and a completed `.new` download is either removed
(empty payload) or promoted to the target.  Only a download failing
mid-transfer can leave a partially written staging file behind. -/
theorem c4_staging_removed_when_downloads_complete (env : Env) (st : RunState)
    (h1 : st.tempFile = none) (h2 : st.newFile = none)
    (h3 : ∃ c, env.dlTemp = DlResult.ok c) (h4 : ∃ c, env.dlNew = DlResult.ok c) :
    (checkAndUpdateConfig env st).st.tempFile = none ∧
    (checkAndUpdateConfig env st).st.newFile = none := by
  have hst := downloadAndInstall_staging env st h4
  unfold checkAndUpdateConfig
  split
  · exact ⟨h1, h2⟩
  · split
    · exact ⟨hst.2.trans h1, hst.1⟩
    · split
      · exact ⟨hst.2.trans h1, hst.1⟩
      · obtain ⟨c, hc⟩ := h3
        simp only [hc]
        split
        · have hst2 := downloadAndInstall_staging env { st with tempFile := none } h4
          exact ⟨hst2.2, hst2.1⟩
        · exact ⟨rfl, h2⟩

/-- C4 amended witness: a run where both downloads complete (equal sizes,
equal digests) ends with no staging files. -/
theorem c4_staging_removed_witness :
    (checkAndUpdateConfig envBothDl stPlain).st.tempFile = none ∧
    (checkAndUpdateConfig envBothDl stPlain).st.newFile = none :=
  c4_staging_removed_when_downloads_complete envBothDl stPlain rfl rfl
    ⟨[7, 7], rfl⟩ ⟨[9, 9, 9, 9, 9], rfl⟩

/-- C5: the claim says a run whose update fails after install but whose
rollback succeeds (outcome `UpdatedWithRollback`) exits in the `Failed`
non-zero family.  A concrete such run — stale remote, install succeeds, both
restart commands fail, rollback over an eligible backup succeeds — has
`_rollback_configuration` return `True`, which `_download_and_install_ovpn`
and `check_and_update_config` propagate, so `main` exits 0. -/
theorem c5_rollback_success_exits_zero :
    specOutcome (checkAndUpdateConfig envBase stRB) = Outcome.updatedWithRollback ∧
    mainExitCode (checkAndUpdateConfig envBase stRB).ok = 0 := by
  decide

/-- C5 amended: every run whose outcome is `UpdatedWithRollback` exits with
code 0, the success family, because the rollback's `True` result is returned
as the run's result. -/
theorem c5_updated_with_rollback_exit_code (env : Env) (st : RunState)
    (h : specOutcome (checkAndUpdateConfig env st) = Outcome.updatedWithRollback) :
    mainExitCode (checkAndUpdateConfig env st).ok = 0 := by
  cases hok : (checkAndUpdateConfig env st).ok with
  | true => simp [mainExitCode]
  | false =>
    exfalso
    unfold specOutcome at h
    rw [hok] at h
    revert h
    split <;> simp

/-- C5 amended witness: the concrete rollback-success run exits 0. -/
theorem c5_updated_with_rollback_exit_code_witness :
    mainExitCode (checkAndUpdateConfig envBase stRB).ok = 0 :=
  c5_updated_with_rollback_exit_code envBase stRB (by decide)

/-- C6: when the staged `.new` download is zero-length, the install step
refuses (returns failure), removes the staging file, and leaves the
pre-existing target file — content and permission bits — exactly as it was. -/
theorem c6_empty_download_refused (env : Env) (st : RunState)
    (h : env.dlNew = DlResult.ok []) :
    (downloadAndInstall env st).ok = false ∧
    (downloadAndInstall env st).st.target = st.target ∧
    (downloadAndInstall env st).st.newFile = none := by
  have hb := (backupPhase_preserves env st).1
  unfold downloadAndInstall
  rw [h]
  simp [hb]

/-- C6 witness: a concrete empty download is refused with the 3-byte target
untouched. -/
theorem c6_empty_download_refused_witness :
    (downloadAndInstall envEmpty stPlain).ok = false ∧
    (downloadAndInstall envEmpty stPlain).st.target = stPlain.target ∧
    (downloadAndInstall envEmpty stPlain).st.newFile = none :=
  c6_empty_download_refused envEmpty stPlain rfl

/-- C7: neither a failing install nor a failing restore leaves the target
path missing when it existed beforehand — the install removes the old target
only after the staged file is confirmed present and non-empty, and the
restore removes it only after the backup is confirmed present (the conclusion
holds for every outcome, failing ones included). -/
theorem c7_target_never_lost (env : Env) (st : RunState)
    (h : st.target.isSome = true) :
    (downloadAndInstall env st).st.target.isSome = true ∧
    ∀ bname, (rollbackConfiguration env bname st).2.target.isSome = true :=
  ⟨downloadAndInstall_target_isSome env st h,
   fun bname => rollbackConfiguration_target_isSome env bname st h⟩

/-- C7 witness: a concrete failing install (both restarts fail, no eligible
backup) and a concrete restore keep the target present. -/
theorem c7_target_never_lost_witness :
    (downloadAndInstall envBase stPlain).st.target.isSome = true ∧
    ∀ bname, (rollbackConfiguration envBase bname stPlain).2.target.isSome = true :=
  c7_target_never_lost envBase stPlain rfl

/-- C8: change detection is cheap-first — a missing local file installs with
no comparison fetch; a size mismatch installs with no comparison fetch; on
equal sizes the remote artifact is fetched to `.temp` and digests decide:
equal digests mean Fresh (no install, run succeeds), different digests mean
Stale (install invoked). -/
theorem c8_change_detection_cheap_first (env : Env) (st : RunState) (n : Nat)
    (hr : env.remoteSize = some n) :
    (st.target = none →
      (checkAndUpdateConfig env st).installCalled = true ∧
      (checkAndUpdateConfig env st).fetchedTemp = false) ∧
    (∀ fd, st.target = some fd → n ≠ fd.content.length →
      (checkAndUpdateConfig env st).installCalled = true ∧
      (checkAndUpdateConfig env st).fetchedTemp = false) ∧
    (∀ fd c, st.target = some fd → n = fd.content.length →
      env.dlTemp = DlResult.ok c →
      (checkAndUpdateConfig env st).fetchedTemp = true ∧
      (env.hashFn fd.content = env.hashFn c →
        (checkAndUpdateConfig env st).installCalled = false ∧
        (checkAndUpdateConfig env st).ok = true) ∧
      (env.hashFn fd.content ≠ env.hashFn c →
        (checkAndUpdateConfig env st).installCalled = true)) := by
  refine ⟨fun ht => ?_, fun fd ht hn => ?_, fun fd c ht hn hdl => ?_⟩
  · simp [checkAndUpdateConfig, hr, ht]
  · simp [checkAndUpdateConfig, hr, ht, hn]
  · refine ⟨?_, fun hh => ?_, fun hh => ?_⟩
    · simp [checkAndUpdateConfig, hr, ht, hn, hdl]
      split <;> simp
    · simp [checkAndUpdateConfig, hr, ht, hn, hdl, hh]
    · simp [checkAndUpdateConfig, hr, ht, hn, hdl, hh]

/-- C8 witness: at equal sizes with equal digests the run fetches the
comparison copy, installs nothing, and succeeds. -/
theorem c8_change_detection_cheap_first_witness :
    (checkAndUpdateConfig envFresh stPlain).fetchedTemp = true ∧
    (checkAndUpdateConfig envFresh stPlain).installCalled = false ∧
    (checkAndUpdateConfig envFresh stPlain).ok = true := by
  have h := (c8_change_detection_cheap_first envFresh stPlain 3 rfl).2.2
    ⟨[1, 2, 3], 0o600⟩ [1, 2, 3] rfl rfl rfl
  exact ⟨h.1, (h.2.1 rfl).1, (h.2.1 rfl).2⟩

end OvpnUpdater
